import Mathlib

/-!
Verification development for the `icp_blog` canister (`src/index.ts`).

The source file contains two concatenated variants of the service.

* Lines 1-143 (modelled here with a `_v1` suffix): `addPost` routed through
  `SecureUUIDGenerator`, and `updatePost` / `deletePost` / `likePost` with
  ownership checks.
* Lines 145-311 (modelled here with the plain source names): `getPosts`,
  `getPost`, `addPost` (raw `uuidv4()`), `commentOnPost`, `likePost`,
  `updatePost` and `deletePost`; this variant performs no ownership check
  in `updatePost` and `deletePost`.

Principals are compared in the source via `toString()` equality, so callers
and owners are modelled as strings.  `ic.time()` values (`nat64`) are `Nat`,
and the ambient `ic.caller()` / `ic.time()` / `uuidv4()` are passed as
explicit arguments.  The `StableBTreeMap` is modelled as an association
list with upsert semantics.
-/

set_option autoImplicit false

namespace IcpBlog

/-- The `Post` record of `src/index.ts` (lines 7-17 and 151-161).
`Principal` is modelled by its string representation, `nat64` by `Nat`,
`Opt<nat64>` by `Option Nat`, and `Vec<string>` by `List String`. -/
structure Post where
  owner : String
  id : String
  title : String
  body : String
  imageURL : String
  likes : Nat
  comments : List String
  created_at : Nat
  updated_at : Option Nat
  deriving Repr, DecidableEq

/-- The `PostPayload` record (lines 20-24 and 165-169). -/
structure PostPayload where
  title : String
  body : String
  imageURL : String
  deriving Repr, DecidableEq

/-- `postStorage`, a `StableBTreeMap<string, Post>`, modelled as an
association list of key-value pairs (at most one entry per key). -/
structure PostStore where
  entries : List (String × Post)
  deriving Repr, DecidableEq

/-- Point lookup on the underlying entry list. -/
def getEntry : List (String × Post) → String → Option Post
  | [], _ => none
  | (k, v) :: rest, id => if k = id then some v else getEntry rest id

/-- Upsert on the underlying entry list: overwrites the entry at the key if
present, otherwise appends a fresh entry. -/
def insertEntry : List (String × Post) → String → Post → List (String × Post)
  | [], k, v => [(k, v)]
  | (k, v) :: rest, id, post =>
    if k = id then (id, post) :: rest else (k, v) :: insertEntry rest id post

/-- Removal on the underlying entry list, returning the removed value (if
any) together with the remaining entries, like `StableBTreeMap.remove`. -/
def removeEntry : List (String × Post) → String → Option Post × List (String × Post)
  | [], _ => (none, [])
  | (k, v) :: rest, id =>
    if k = id then (some v, rest)
    else
      let r := removeEntry rest id
      (r.1, (k, v) :: r.2)

/-- `postStorage.get(id)`. -/
def PostStore.get (s : PostStore) (id : String) : Option Post :=
  getEntry s.entries id

/-- `postStorage.insert(id, post)`. -/
def PostStore.insert (s : PostStore) (id : String) (post : Post) : PostStore :=
  ⟨insertEntry s.entries id post⟩

/-- `postStorage.remove(id)`: the removed value and the store afterwards. -/
def PostStore.remove (s : PostStore) (id : String) : Option Post × PostStore :=
  let r := removeEntry s.entries id
  (r.1, ⟨r.2⟩)

/-- `postStorage.values()`. -/
def PostStore.values (s : PostStore) : List Post :=
  s.entries.map Prod.snd

/-- Whether a `Result<Post, string>` is the `Err` constructor. -/
def isErr {α : Type} (r : Except String α) : Bool :=
  match r with
  | .error _ => true
  | .ok _ => false

/-- The state of `SecureUUIDGenerator` (lines 27-39): the set of issued
UUIDs, together with the current position in the stream of values that
successive `uuidv4()` calls return. -/
structure GenState where
  generatedUUIDs : List String
  pos : Nat
  deriving Repr, DecidableEq

/-- `SecureUUIDGenerator.generateUUID` (lines 30-38): draw from the
`uuidv4()` stream until the value is not among the already issued ones,
then record and return it.  The do-while loop is given explicit fuel;
`none` models non-termination of the retry loop. -/
def generateUUID (stream : Nat → String) : Nat → GenState → Option (String × GenState)
  | 0, _ => none
  | fuel + 1, st =>
    let newUUID := stream st.pos
    if newUUID ∈ st.generatedUUIDs then
      generateUUID stream fuel { st with pos := st.pos + 1 }
    else
      some (newUUID, { generatedUUIDs := newUUID :: st.generatedUUIDs, pos := st.pos + 1 })

/-- `addPost` of the second variant (lines 208-231): validate that the three
payload fields are non-empty (JS truthiness on strings), then build the post
with `id = uuidv4()` and insert it.  `caller` is `ic.caller()`, `now` is
`ic.time()` and `uuid` is the value the `uuidv4()` call returns. -/
def addPost (caller : String) (now : Nat) (uuid : String) (payload : PostPayload)
    (s : PostStore) : Except String Post × PostStore :=
  if payload.title = "" ∨ payload.body = "" ∨ payload.imageURL = "" then
    (.error "Missing required fields", s)
  else
    let post : Post :=
      { owner := caller, id := uuid, likes := 0, comments := [], created_at := now,
        updated_at := none, title := payload.title, body := payload.body,
        imageURL := payload.imageURL }
    (.ok post, s.insert post.id post)

/-- `getPosts` (lines 190-193). -/
def getPosts (s : PostStore) : Except String (List Post) :=
  .ok s.values

/-- `getPost` (lines 197-203). -/
def getPost (s : PostStore) (id : String) : Except String Post :=
  match s.get id with
  | some post => .ok post
  | none => .error ("a post with id=" ++ id ++ " not found")

/-- `commentOnPost` (lines 236-253): append the comment to the stored
comments and re-insert at the same key; no check on the comment text. -/
def commentOnPost (id : String) (comment : String) (s : PostStore) :
    Except String Post × PostStore :=
  match s.get id with
  | some post =>
    let updatedPost : Post := { post with comments := post.comments ++ [comment] }
    (.ok updatedPost, s.insert id updatedPost)
  | none => (.error "Post not found.", s)

/-- `likePost` of the second variant (lines 260-276): owners may not like
their own post; otherwise `likes` is incremented and `updated_at` set. -/
def likePost (caller : String) (now : Nat) (id : String) (s : PostStore) :
    Except String Post × PostStore :=
  match s.get id with
  | some post =>
    if post.owner = caller then
      (.error "Owners cannot like their post", s)
    else
      let updatedPost : Post := { post with likes := post.likes + 1, updated_at := some now }
      (.ok updatedPost, s.insert post.id updatedPost)
  | none => (.error ("couldn\x27t update a post with id=" ++ id ++ ". post not found"), s)

/-- `updatePost` of the second variant (lines 279-289): overwrites
`title` / `body` / `imageURL` and sets `updated_at`.  Note: this variant
performs NO ownership check; `caller` is accepted unexamined. -/
def updatePost (caller : String) (now : Nat) (id : String) (payload : PostPayload)
    (s : PostStore) : Except String Post × PostStore :=
  match s.get id with
  | some post =>
    let _ := caller
    let updatedPost : Post :=
      { post with
        title := payload.title,
        body := payload.body,
        imageURL := payload.imageURL,
        updated_at := some now }
    (.ok updatedPost, s.insert post.id updatedPost)
  | none => (.error ("couldn\x27t update a post with id=" ++ id ++ ". post not found"), s)

/-- `deletePost` of the second variant (lines 293-299): removes the entry
whoever the caller is; no ownership check. -/
def deletePost (id : String) (s : PostStore) : Except String Post × PostStore :=
  let r := s.remove id
  match r.1 with
  | some deletedPost => (.ok deletedPost, r.2)
  | none => (.error ("couldn\x27t delete a post with id=" ++ id ++ ". post not found."), r.2)

/-- `addPost` of the first variant (lines 53-76): identical validation and
post construction, but the id comes from
`secureUUIDGenerator.generateUUID()`.  Result is `none` when the generator
loop runs out of fuel (non-termination). -/
def addPost_v1 (caller : String) (now : Nat) (stream : Nat → String) (fuel : Nat)
    (gen : GenState) (payload : PostPayload) (s : PostStore) :
    Option (Except String Post × PostStore × GenState) :=
  if payload.title = "" ∨ payload.body = "" ∨ payload.imageURL = "" then
    some (.error "Missing required fields", s, gen)
  else
    match generateUUID stream fuel gen with
    | some (uuid, gen2) =>
      let post : Post :=
        { owner := caller, id := uuid, likes := 0, comments := [], created_at := now,
          updated_at := none, title := payload.title, body := payload.body,
          imageURL := payload.imageURL }
      some (.ok post, s.insert post.id post, gen2)
    | none => none

/-- `likePost` of the first variant (lines 80-99): same behaviour as the
second variant, with that variant\x27s error texts. -/
def likePost_v1 (caller : String) (now : Nat) (id : String) (s : PostStore) :
    Except String Post × PostStore :=
  match s.get id with
  | some post =>
    if caller = post.owner then
      (.error "Owners cannot like their own post", s)
    else
      let updatedPost : Post := { post with likes := post.likes + 1, updated_at := some now }
      (.ok updatedPost, s.insert post.id updatedPost)
  | none =>
    (.error ("Couldn\x27t update post with id=" ++ id ++ ". Post not found"), s)

/-- `updatePost` of the first variant (lines 105-124): only the owner may
update; overwrites `title` / `body` / `imageURL` and sets `updated_at`. -/
def updatePost_v1 (caller : String) (now : Nat) (id : String) (payload : PostPayload)
    (s : PostStore) : Except String Post × PostStore :=
  match s.get id with
  | some post =>
    if caller ≠ post.owner then
      (.error "Only the owner can update the post", s)
    else
      let updatedPost : Post :=
        { post with
          title := payload.title,
          body := payload.body,
          imageURL := payload.imageURL,
          updated_at := some now }
      (.ok updatedPost, s.insert post.id updatedPost)
  | none =>
    (.error ("Couldn\x27t update post with id=" ++ id ++ ". Post not found"), s)

/-- `deletePost` of the first variant (lines 130-143): only the owner may
delete; the prior value is returned. -/
def deletePost_v1 (caller : String) (id : String) (s : PostStore) :
    Except String Post × PostStore :=
  match s.get id with
  | some post =>
    if caller ≠ post.owner then
      (.error "Only the owner can delete the post", s)
    else
      (.ok post, (s.remove id).2)
  | none =>
    (.error ("Couldn\x27t delete post with id=" ++ id ++ ". Post not found"), s)

/-! ### Store lemmas -/

/-- Looking up the key just inserted yields the inserted value. -/
theorem getEntry_insertEntry_self (l : List (String × Post)) (k : String) (v : Post) :
    getEntry (insertEntry l k v) k = some v := by
  induction l with
  | nil => simp [insertEntry, getEntry]
  | cons hd tl ih =>
    obtain ⟨k2, v2⟩ := hd
    by_cases h : k2 = k <;> simp [insertEntry, getEntry, h, ih]

/-- The value returned by removal is exactly the value a lookup finds. -/
theorem removeEntry_fst (l : List (String × Post)) (id : String) :
    (removeEntry l id).1 = getEntry l id := by
  induction l with
  | nil => rfl
  | cons hd tl ih =>
    obtain ⟨k, v⟩ := hd
    by_cases h : k = id <;> simp [removeEntry, getEntry, h, ih]

/-- Removing an absent key leaves the entry list unchanged. -/
theorem removeEntry_absent (l : List (String × Post)) (id : String)
    (h : getEntry l id = none) : (removeEntry l id).2 = l := by
  induction l with
  | nil => rfl
  | cons hd tl ih =>
    obtain ⟨k, v⟩ := hd
    by_cases hk : k = id
    · simp [getEntry, hk] at h
    · simp [getEntry, hk] at h
      simp [removeEntry, hk, ih h]

/-- Store-level form of `getEntry_insertEntry_self`. -/
theorem PostStore.get_insert_self (s : PostStore) (k : String) (v : Post) :
    (s.insert k v).get k = some v :=
  getEntry_insertEntry_self s.entries k v

/-- Store-level: when `remove` finds nothing, the store is unchanged. -/
theorem PostStore.remove_snd_of_none (s : PostStore) (id : String)
    (h : (s.remove id).1 = none) : (s.remove id).2 = s := by
  have hfst : getEntry s.entries id = none := by
    have h2 := removeEntry_fst s.entries id
    simpa [PostStore.remove] using (h.symm.trans h2).symm
  simp [PostStore.remove, removeEntry_absent s.entries id hfst]

/-! ### Generator lemmas -/

/-- A successful `generateUUID` call returns a UUID that was not among the
already issued ones, and records it. -/
theorem generateUUID_spec (stream : Nat → String) :
    ∀ (fuel : Nat) (st : GenState) (u : String) (st2 : GenState),
      generateUUID stream fuel st = some (u, st2) →
      u ∉ st.generatedUUIDs ∧ st2.generatedUUIDs = u :: st.generatedUUIDs := by
  intro fuel
  induction fuel with
  | zero =>
    intro st u st2 h
    simp [generateUUID] at h
  | succ n ih =>
    intro st u st2 h
    by_cases hm : stream st.pos ∈ st.generatedUUIDs
    · simp only [generateUUID, hm, if_pos] at h
      have h3 := ih { st with pos := st.pos + 1 } u st2 h
      simpa using h3
    · simp only [generateUUID, hm, if_neg, not_false_iff, Option.some.injEq, Prod.mk.injEq] at h
      obtain ⟨h1, h2⟩ := h
      subst h1
      subst h2
      exact ⟨hm, rfl⟩

/-- Two successive successful `generateUUID` calls never return the same
UUID: the second call rejects everything the first one recorded. -/
theorem generateUUID_unique (stream : Nat → String) (fuel1 fuel2 : Nat)
    (st st1 st2 : GenState) (u1 u2 : String)
    (h1 : generateUUID stream fuel1 st = some (u1, st1))
    (h2 : generateUUID stream fuel2 st1 = some (u2, st2)) : u1 ≠ u2 := by
  obtain ⟨-, hrec⟩ := generateUUID_spec stream fuel1 st u1 st1 h1
  obtain ⟨hfresh, -⟩ := generateUUID_spec stream fuel2 st1 u2 st2 h2
  intro he
  apply hfresh
  rw [hrec, ← he]
  exact List.mem_cons_self u1 st.generatedUUIDs

/-! ### Concrete demonstration values -/

/-- A stored post owned by `"alice"` under key `"p1"`. -/
def demoPost : Post :=
  { owner := "alice", id := "p1", title := "T", body := "B", imageURL := "I",
    likes := 0, comments := [], created_at := 100, updated_at := none }

/-- A store holding exactly `demoPost`. -/
def demoStore : PostStore := ⟨[("p1", demoPost)]⟩

/-- A valid (all fields non-empty) update payload. -/
def demoPayload : PostPayload := { title := "T2", body := "B2", imageURL := "I2" }

/-- The id of the post an operation returned, if it succeeded. -/
def idOf (r : Except String Post) : Option String :=
  match r with
  | .ok p => some p.id
  | .error _ => none

/-! ### Claim theorems -/

/-- The post `updatePost` (second variant) writes when it is given
`demoPayload` at time `200`. -/
def demoPostUpdated : Post :=
  { demoPost with
    title := "T2",
    body := "B2",
    imageURL := "I2",
    updated_at := some 200 }

/-- C1: the claim states that `updatePost` by a non-owner returns an
`Unauthorized` error and leaves the stored post unchanged.  The
`updatePost` at lines 280-289 of `src/index.ts` performs no ownership
check: caller `"bob"` successfully overwrites the post owned by
`"alice"`, and the stored post changes.  (The other variant, at lines
105-124 and modelled as `updatePost_v1`, does enforce ownership.) -/
theorem C1_updatePost_nonowner_succeeds :
    "bob" ≠ demoPost.owner ∧
    updatePost "bob" 200 "p1" demoPayload demoStore =
      (.ok demoPostUpdated, demoStore.insert "p1" demoPostUpdated) ∧
    (updatePost "bob" 200 "p1" demoPayload demoStore).2.get "p1" = some demoPostUpdated ∧
    demoPostUpdated ≠ demoPost := by
  refine ⟨by decide, rfl, rfl, by decide⟩

/-- C2: the claim states that `deletePost` by a non-owner returns an
`Unauthorized` error and leaves the stored post unchanged.  The
`deletePost` at lines 294-299 of `src/index.ts` never consults the caller
at all: the post owned by `"alice"` is removed and returned no matter who
calls.  (The other variant, at lines 130-143 and modelled as
`deletePost_v1`, does enforce ownership.) -/
theorem C2_deletePost_ignores_owner :
    demoPost.owner = "alice" ∧
    deletePost "p1" demoStore = (.ok demoPost, ⟨[]⟩) ∧
    (deletePost "p1" demoStore).2.get "p1" = none := by
  refine ⟨rfl, rfl, rfl⟩

/-- C3 helper: the post `likePost` stores on success. -/
def likeUpdate (post : Post) (now : Nat) : Post :=
  { post with likes := post.likes + 1, updated_at := some now }

/-- C3: for every stored post, `likePost` by a non-owner increments `likes`
by exactly one and sets `updated_at` to the current time, in both variants
(lines 80-99 and 260-276); by the owner it fails with the
owners-cannot-like error and leaves the store (hence the stored post)
unchanged. -/
theorem C3_likePost_spec (caller : String) (now : Nat) (id : String) (s : PostStore)
    (post : Post) (h : s.get id = some post) :
    (post.owner ≠ caller →
      likePost caller now id s =
        (.ok (likeUpdate post now), s.insert post.id (likeUpdate post now)) ∧
      likePost_v1 caller now id s =
        (.ok (likeUpdate post now), s.insert post.id (likeUpdate post now)) ∧
      (s.insert post.id (likeUpdate post now)).get post.id = some (likeUpdate post now) ∧
      (likeUpdate post now).likes = post.likes + 1 ∧
      (likeUpdate post now).updated_at = some now) ∧
    (post.owner = caller →
      likePost caller now id s = (.error "Owners cannot like their post", s) ∧
      likePost_v1 caller now id s = (.error "Owners cannot like their own post", s)) := by
  constructor
  · intro hne
    refine ⟨?_, ?_, PostStore.get_insert_self s post.id (likeUpdate post now), rfl, rfl⟩
    · simp [likePost, h, hne, likeUpdate]
    · have hne2 : caller ≠ post.owner := fun he => hne he.symm
      simp [likePost_v1, h, hne2, likeUpdate]
  · intro heq
    constructor
    · simp [likePost, h, heq]
    · simp [likePost_v1, h, heq]

/-- Witness for C3 at concrete inputs: `"bob"` likes alice\x27s post,
`"alice"` is refused on her own post. -/
theorem C3_likePost_spec_witness :
    (likePost "bob" 7 "p1" demoStore =
      (.ok (likeUpdate demoPost 7), demoStore.insert "p1" (likeUpdate demoPost 7))) ∧
    (likePost_v1 "alice" 7 "p1" demoStore =
      (.error "Owners cannot like their own post", demoStore)) := by
  have h : demoStore.get "p1" = some demoPost := rfl
  exact ⟨((C3_likePost_spec "bob" 7 "p1" demoStore demoPost h).1 (by decide)).1,
         ((C3_likePost_spec "alice" 7 "p1" demoStore demoPost h).2 rfl).2⟩

/-- C4: the claim states that no two `addPost` calls ever produce the same
id.  The `addPost` at lines 208-231 of `src/index.ts` uses the raw
`uuidv4()` value with no uniqueness check (unlike the other variant, which
routes through `SecureUUIDGenerator`, modelled as `generateUUID`), and the
`crypto.getRandomValues` shim at lines 302-311 is plain `Math.random`, so
nothing rules out a repeated value.  When `uuidv4()` yields `"u-42"`
twice, two `addPost` calls both succeed with id `"u-42"`. -/
theorem C4_addPost_repeats_id :
    idOf (addPost "alice" 0 "u-42" demoPayload ⟨[]⟩).1 = some "u-42" ∧
    idOf (addPost "bob" 1 "u-42" demoPayload
      (addPost "alice" 0 "u-42" demoPayload ⟨[]⟩).2).1 = some "u-42" := by
  exact ⟨rfl, rfl⟩

/-- C5: every operation is atomic with respect to errors.  Whenever any of
the mutating operations of either variant returns an `Err` result, the
store (and, for `addPost_v1`, the generator state) is exactly the one
passed in; in particular `addPost` with an empty `title`, `body` or
`imageURL` fails with the missing-fields error and inserts nothing.
(`getPost` and `getPosts` take the store and return only a result, so they
cannot mutate it by construction.) -/
theorem C5_error_atomicity (caller : String) (now : Nat) (uuid : String)
    (id comment : String) (payload : PostPayload) (s : PostStore)
    (stream : Nat → String) (fuel : Nat) (gen : GenState) :
    (isErr (addPost caller now uuid payload s).1 = true →
      (addPost caller now uuid payload s).2 = s) ∧
    ((payload.title = "" ∨ payload.body = "" ∨ payload.imageURL = "") →
      addPost caller now uuid payload s = (.error "Missing required fields", s)) ∧
    (isErr (updatePost caller now id payload s).1 = true →
      (updatePost caller now id payload s).2 = s) ∧
    (isErr (deletePost id s).1 = true → (deletePost id s).2 = s) ∧
    (isErr (likePost caller now id s).1 = true → (likePost caller now id s).2 = s) ∧
    (isErr (commentOnPost id comment s).1 = true → (commentOnPost id comment s).2 = s) ∧
    (∀ r s2 gen2, addPost_v1 caller now stream fuel gen payload s = some (r, s2, gen2) →
      isErr r = true → s2 = s ∧ gen2 = gen) ∧
    (isErr (updatePost_v1 caller now id payload s).1 = true →
      (updatePost_v1 caller now id payload s).2 = s) ∧
    (isErr (deletePost_v1 caller id s).1 = true → (deletePost_v1 caller id s).2 = s) ∧
    (isErr (likePost_v1 caller now id s).1 = true → (likePost_v1 caller now id s).2 = s) := by
  refine ⟨?_, ?_, ?_, ?_, ?_, ?_, ?_, ?_, ?_, ?_⟩
  · intro herr
    by_cases hv : payload.title = "" ∨ payload.body = "" ∨ payload.imageURL = ""
    · simp [addPost, hv]
    · simp [addPost, hv, isErr] at herr
  · intro hv
    simp [addPost, hv]
  · intro herr
    cases hg : s.get id with
    | some post => simp [updatePost, hg, isErr] at herr
    | none => simp [updatePost, hg]
  · intro herr
    cases hr : (s.remove id).1 with
    | some post => simp [deletePost, hr, isErr] at herr
    | none =>
      simp [deletePost, hr]
      exact PostStore.remove_snd_of_none s id hr
  · intro herr
    cases hg : s.get id with
    | some post =>
      by_cases ho : post.owner = caller
      · simp [likePost, hg, ho]
      · simp [likePost, hg, ho, isErr] at herr
    | none => simp [likePost, hg]
  · intro herr
    cases hg : s.get id with
    | some post => simp [commentOnPost, hg, isErr] at herr
    | none => simp [commentOnPost, hg]
  · intro r s2 gen2 hcall herr
    by_cases hv : payload.title = "" ∨ payload.body = "" ∨ payload.imageURL = ""
    · simp only [addPost_v1, hv, if_pos, Option.some.injEq, Prod.mk.injEq] at hcall
      obtain ⟨h1, h2, h3⟩ := hcall
      exact ⟨h2.symm, h3.symm⟩
    · cases hG : generateUUID stream fuel gen with
      | none => simp [addPost_v1, hv, hG] at hcall
      | some ug =>
        obtain ⟨u, g2⟩ := ug
        simp [addPost_v1, hv, hG] at hcall
        obtain ⟨h1, h2, h3⟩ := hcall
        rw [← h1] at herr
        simp [isErr] at herr
  · intro herr
    cases hg : s.get id with
    | some post =>
      by_cases ho : caller = post.owner
      · simp [updatePost_v1, hg, ho, isErr] at herr
      · simp [updatePost_v1, hg, ho]
    | none => simp [updatePost_v1, hg]
  · intro herr
    cases hg : s.get id with
    | some post =>
      by_cases ho : caller = post.owner
      · simp [deletePost_v1, hg, ho, isErr] at herr
      · simp [deletePost_v1, hg, ho]
    | none => simp [deletePost_v1, hg]
  · intro herr
    cases hg : s.get id with
    | some post =>
      by_cases ho : caller = post.owner
      · simp [likePost_v1, hg, ho]
      · simp [likePost_v1, hg, ho, isErr] at herr
    | none => simp [likePost_v1, hg]

/-- A payload with an empty `title`, rejected by `addPost` validation. -/
def badPayload : PostPayload := { title := "", body := "B", imageURL := "I" }

/-- A fresh generator state: nothing issued yet. -/
def demoGen : GenState := ⟨[], 0⟩

/-- Witness for C5: concrete error calls of every operation leave
`demoStore` (and the generator state) untouched. -/
theorem C5_error_atomicity_witness :
    (addPost "alice" 0 "u" badPayload demoStore).2 = demoStore ∧
    addPost "alice" 0 "u" badPayload demoStore = (.error "Missing required fields", demoStore) ∧
    (updatePost "alice" 0 "nope" badPayload demoStore).2 = demoStore ∧
    (deletePost "nope" demoStore).2 = demoStore ∧
    (likePost "alice" 0 "p1" demoStore).2 = demoStore ∧
    (commentOnPost "nope" "c" demoStore).2 = demoStore ∧
    (demoStore = demoStore ∧ demoGen = demoGen) ∧
    (updatePost_v1 "bob" 0 "p1" demoPayload demoStore).2 = demoStore ∧
    (deletePost_v1 "bob" "p1" demoStore).2 = demoStore ∧
    (likePost_v1 "alice" 0 "p1" demoStore).2 = demoStore := by
  have t1 := C5_error_atomicity "alice" 0 "u" "nope" "c" badPayload demoStore
    (fun _ => "x") 1 demoGen
  have t2 := C5_error_atomicity "bob" 0 "u" "p1" "c" demoPayload demoStore
    (fun _ => "x") 1 demoGen
  have t3 := C5_error_atomicity "alice" 0 "u" "p1" "c" demoPayload demoStore
    (fun _ => "x") 1 demoGen
  exact ⟨t1.1 rfl, t1.2.1 (Or.inl rfl), t1.2.2.1 rfl, t1.2.2.2.1 rfl,
    t3.2.2.2.2.1 rfl, t1.2.2.2.2.2.1 rfl,
    t1.2.2.2.2.2.2.1 (.error "Missing required fields") demoStore demoGen rfl rfl,
    t2.2.2.2.2.2.2.2.1 rfl, t2.2.2.2.2.2.2.2.2.1 rfl, t3.2.2.2.2.2.2.2.2.2 rfl⟩

/-- The post value `addPost` constructs (lines 217-227 of `src/index.ts`). -/
def mkPost (caller : String) (now : Nat) (uuid : String) (payload : PostPayload) : Post :=
  { owner := caller, id := uuid, likes := 0, comments := [], created_at := now,
    updated_at := none, title := payload.title, body := payload.body,
    imageURL := payload.imageURL }

/-- C6: for every payload whose `title`, `body` and `imageURL` are all
non-empty, `addPost` succeeds, and `getPost` on the returned post\x27s id
(against the store `addPost` produced) returns exactly the created post:
`owner` is the caller, `likes = 0`, `comments` empty, `updated_at` unset. -/
theorem C6_addPost_getPost (caller : String) (now : Nat) (uuid : String)
    (payload : PostPayload) (s : PostStore)
    (ht : payload.title ≠ "") (hb : payload.body ≠ "") (hi : payload.imageURL ≠ "") :
    (addPost caller now uuid payload s).1 = .ok (mkPost caller now uuid payload) ∧
    getPost (addPost caller now uuid payload s).2 (mkPost caller now uuid payload).id =
      .ok (mkPost caller now uuid payload) ∧
    (mkPost caller now uuid payload).owner = caller ∧
    (mkPost caller now uuid payload).likes = 0 ∧
    (mkPost caller now uuid payload).comments = [] ∧
    (mkPost caller now uuid payload).updated_at = none ∧
    (mkPost caller now uuid payload).title = payload.title ∧
    (mkPost caller now uuid payload).body = payload.body ∧
    (mkPost caller now uuid payload).imageURL = payload.imageURL := by
  have hv : ¬(payload.title = "" ∨ payload.body = "" ∨ payload.imageURL = "") := by
    push_neg
    exact ⟨ht, hb, hi⟩
  refine ⟨?_, ?_, rfl, rfl, rfl, rfl, rfl, rfl, rfl⟩
  · simp [addPost, hv, mkPost]
  · simp [addPost, hv, getPost, mkPost, PostStore.get_insert_self]

/-- Witness for C6 at concrete inputs: adding to the empty store. -/
theorem C6_addPost_getPost_witness :
    (addPost "alice" 5 "u1" demoPayload ⟨[]⟩).1 = .ok (mkPost "alice" 5 "u1" demoPayload) ∧
    getPost (addPost "alice" 5 "u1" demoPayload ⟨[]⟩).2 (mkPost "alice" 5 "u1" demoPayload).id =
      .ok (mkPost "alice" 5 "u1" demoPayload) ∧
    (mkPost "alice" 5 "u1" demoPayload).owner = "alice" ∧
    (mkPost "alice" 5 "u1" demoPayload).likes = 0 ∧
    (mkPost "alice" 5 "u1" demoPayload).comments = [] ∧
    (mkPost "alice" 5 "u1" demoPayload).updated_at = none ∧
    (mkPost "alice" 5 "u1" demoPayload).title = demoPayload.title ∧
    (mkPost "alice" 5 "u1" demoPayload).body = demoPayload.body ∧
    (mkPost "alice" 5 "u1" demoPayload).imageURL = demoPayload.imageURL :=
  C6_addPost_getPost "alice" 5 "u1" demoPayload ⟨[]⟩ (by decide) (by decide) (by decide)

/-- C7: for every stored post, `commentOnPost` stores the post with the new
comment appended at the end (all prior comments kept, in order); for an
absent id it fails with the not-found error and changes nothing. -/
theorem C7_commentOnPost_appends (id comment : String) (s : PostStore) :
    (∀ post : Post, s.get id = some post →
      commentOnPost id comment s =
        (.ok { post with comments := post.comments ++ [comment] },
         s.insert id { post with comments := post.comments ++ [comment] }) ∧
      (post.comments ++ [comment]).take post.comments.length = post.comments ∧
      (post.comments ++ [comment]).getLast? = some comment) ∧
    (s.get id = none → commentOnPost id comment s = (.error "Post not found.", s)) := by
  constructor
  · intro post h
    refine ⟨?_, ?_, ?_⟩
    · simp [commentOnPost, h]
    · exact List.take_left post.comments [comment]
    · simp
  · intro h
    simp [commentOnPost, h]

/-- Witness for C7: commenting on `demoPost`, and on an absent id. -/
theorem C7_commentOnPost_appends_witness :
    (commentOnPost "p1" "hi" demoStore =
      (.ok { demoPost with comments := ["hi"] },
       demoStore.insert "p1" { demoPost with comments := ["hi"] })) ∧
    (commentOnPost "nope" "hi" demoStore = (.error "Post not found.", demoStore)) := by
  have t1 := C7_commentOnPost_appends "p1" "hi" demoStore
  have t2 := C7_commentOnPost_appends "nope" "hi" demoStore
  exact ⟨(t1.1 demoPost rfl).1, t2.2 rfl⟩

/-- C8: no operation that rewrites a stored post changes its `owner` (nor
its `id` or `created_at`): whenever `updatePost` (either variant),
`likePost` (either variant) or `commentOnPost` succeeds on a stored post,
the post it returns (and stores) has the same `owner`, `id` and
`created_at` as the stored one. -/
theorem C8_owner_immutable (caller : String) (now : Nat) (id comment : String)
    (payload : PostPayload) (s : PostStore) (post : Post) (h : s.get id = some post) :
    (∀ p2 s2, updatePost caller now id payload s = (.ok p2, s2) →
      p2.owner = post.owner ∧ p2.id = post.id ∧ p2.created_at = post.created_at) ∧
    (∀ p2 s2, updatePost_v1 caller now id payload s = (.ok p2, s2) →
      p2.owner = post.owner ∧ p2.id = post.id ∧ p2.created_at = post.created_at) ∧
    (∀ p2 s2, likePost caller now id s = (.ok p2, s2) →
      p2.owner = post.owner ∧ p2.id = post.id ∧ p2.created_at = post.created_at) ∧
    (∀ p2 s2, likePost_v1 caller now id s = (.ok p2, s2) →
      p2.owner = post.owner ∧ p2.id = post.id ∧ p2.created_at = post.created_at) ∧
    (∀ p2 s2, commentOnPost id comment s = (.ok p2, s2) →
      p2.owner = post.owner ∧ p2.id = post.id ∧ p2.created_at = post.created_at) := by
  refine ⟨?_, ?_, ?_, ?_, ?_⟩
  · intro p2 s2 he
    simp [updatePost, h] at he
    obtain ⟨h1, h2⟩ := he
    subst h1
    exact ⟨rfl, rfl, rfl⟩
  · intro p2 s2 he
    by_cases ho : caller = post.owner
    · simp [updatePost_v1, h, ho] at he
      obtain ⟨h1, h2⟩ := he
      subst h1
      exact ⟨rfl, rfl, rfl⟩
    · simp [updatePost_v1, h, ho] at he
  · intro p2 s2 he
    by_cases ho : post.owner = caller
    · simp [likePost, h, ho] at he
    · simp [likePost, h, ho] at he
      obtain ⟨h1, h2⟩ := he
      subst h1
      exact ⟨rfl, rfl, rfl⟩
  · intro p2 s2 he
    by_cases ho : caller = post.owner
    · simp [likePost_v1, h, ho] at he
    · simp [likePost_v1, h, ho] at he
      obtain ⟨h1, h2⟩ := he
      subst h1
      exact ⟨rfl, rfl, rfl⟩
  · intro p2 s2 he
    simp [commentOnPost, h] at he
    obtain ⟨h1, h2⟩ := he
    subst h1
    exact ⟨rfl, rfl, rfl⟩

/-- The post the no-check `updatePost` stores when `"alice"` (the owner)
updates `demoPost` with `demoPayload` at time `5`. -/
def updAliceDemo : Post :=
  { demoPost with
    title := "T2",
    body := "B2",
    imageURL := "I2",
    updated_at := some 5 }

/-- The post stored after `"bob"` likes `demoPost` at time `5`. -/
def likedDemo : Post := { demoPost with likes := demoPost.likes + 1, updated_at := some 5 }

/-- The post stored after commenting `"hi"` on `demoPost`. -/
def commentedDemo : Post := { demoPost with comments := demoPost.comments ++ ["hi"] }

/-- Witness for C8: concrete successful update / like / comment calls all
keep `owner`, `id` and `created_at`. -/
theorem C8_owner_immutable_witness :
    (updAliceDemo.owner = demoPost.owner ∧ updAliceDemo.id = demoPost.id ∧
      updAliceDemo.created_at = demoPost.created_at) ∧
    (likedDemo.owner = demoPost.owner ∧ likedDemo.id = demoPost.id ∧
      likedDemo.created_at = demoPost.created_at) ∧
    (commentedDemo.owner = demoPost.owner ∧ commentedDemo.id = demoPost.id ∧
      commentedDemo.created_at = demoPost.created_at) := by
  have h : demoStore.get "p1" = some demoPost := rfl
  have t1 := C8_owner_immutable "alice" 5 "p1" "hi" demoPayload demoStore demoPost h
  have t2 := C8_owner_immutable "bob" 5 "p1" "hi" demoPayload demoStore demoPost h
  refine ⟨?_, ?_, ?_⟩
  · exact t1.1 updAliceDemo (demoStore.insert "p1" updAliceDemo) rfl
  · exact t2.2.2.1 likedDemo (demoStore.insert "p1" likedDemo) rfl
  · exact t1.2.2.2.2 commentedDemo (demoStore.insert "p1" commentedDemo) rfl

/-- C9: a successful `commentOnPost` modifies only the `comments` field; in
particular `updated_at` is exactly what it was, so a post with `updated_at`
unset still has it unset afterwards. -/
theorem C9_comment_preserves_updated_at (id comment : String) (s : PostStore)
    (post : Post) (h : s.get id = some post) :
    commentOnPost id comment s =
      (.ok { post with comments := post.comments ++ [comment] },
       s.insert id { post with comments := post.comments ++ [comment] }) ∧
    ({ post with comments := post.comments ++ [comment] } : Post).updated_at =
      post.updated_at ∧
    ({ post with comments := post.comments ++ [comment] } : Post).owner = post.owner ∧
    ({ post with comments := post.comments ++ [comment] } : Post).id = post.id ∧
    ({ post with comments := post.comments ++ [comment] } : Post).title = post.title ∧
    ({ post with comments := post.comments ++ [comment] } : Post).body = post.body ∧
    ({ post with comments := post.comments ++ [comment] } : Post).imageURL = post.imageURL ∧
    ({ post with comments := post.comments ++ [comment] } : Post).likes = post.likes ∧
    ({ post with comments := post.comments ++ [comment] } : Post).created_at = post.created_at ∧
    (post.updated_at = none →
      ({ post with comments := post.comments ++ [comment] } : Post).updated_at = none) := by
  refine ⟨?_, rfl, rfl, rfl, rfl, rfl, rfl, rfl, rfl, fun hu => hu⟩
  simp [commentOnPost, h]

/-- Witness for C9: `demoPost` has `updated_at` unset, and so does the
stored post after commenting on it. -/
theorem C9_comment_preserves_updated_at_witness :
    commentOnPost "p1" "hi" demoStore =
      (.ok { demoPost with comments := ["hi"] },
       demoStore.insert "p1" { demoPost with comments := ["hi"] }) ∧
    ({ demoPost with comments := ["hi"] } : Post).updated_at = none := by
  have t := C9_comment_preserves_updated_at "p1" "hi" demoStore demoPost rfl
  exact ⟨t.1, t.2.2.2.2.2.2.2.2.2 rfl⟩

/-- C10: `commentOnPost` validates nothing about the comment text: for
every stored post it succeeds for every comment string (the empty string
included), appending it; its only error is the not-found one, returned
exactly when the id is absent. -/
theorem C10_comment_no_validation (id comment : String) (s : PostStore) :
    ((commentOnPost id comment s).1 = .error "Post not found." ↔ s.get id = none) ∧
    (isErr (commentOnPost id comment s).1 = false ↔ (s.get id).isSome = true) ∧
    (∀ post : Post, s.get id = some post →
      (commentOnPost id comment s).1 = .ok { post with comments := post.comments ++ [comment] }) := by
  refine ⟨?_, ?_, ?_⟩
  · cases hg : s.get id with
    | some post => simp [commentOnPost, hg]
    | none => simp [commentOnPost, hg]
  · cases hg : s.get id with
    | some post => simp [commentOnPost, hg, isErr]
    | none => simp [commentOnPost, hg, isErr]
  · intro post hp
    simp [commentOnPost, hp]

/-- Witness for C10: the empty comment is accepted and appended; the only
error arises on an absent id. -/
theorem C10_comment_no_validation_witness :
    (commentOnPost "p1" "" demoStore).1 = .ok { demoPost with comments := [""] } ∧
    (commentOnPost "nope" "" demoStore).1 = .error "Post not found." := by
  have t1 := C10_comment_no_validation "p1" "" demoStore
  have t2 := C10_comment_no_validation "nope" "" demoStore
  exact ⟨t1.2.2 demoPost rfl, t2.1.mpr rfl⟩

end IcpBlog
